import Mathlib

/-!
# Verification of the `sync` reconciliation engine (joeblew999/plat-telemetry)

Shallow embedding of the Go sources under `sync/`:

* `pkg/poller/poller.go`   — GitHub polling loop (`Poller`, `checkAll`, `checkRepo`,
  `getTagCommit`, `getLatestCommit`, `parseRepo`, `getDesiredVersion`).
* `pkg/webhook/webhook.go` — webhook server (`NewServer`, `HandleWebhook`,
  `triggerUpdate`, `mapRepoToSubsystem`).
* `pkg/checker`            — on-disk applied-version marker (`readVersion`,
  `GetCurrentVersion`).
* `pkg/gitops` / `cmd/gitops.go` — go-git primitives (`Pull`, `GetCommitHash`,
  `pullRepo`).

External effects (GitHub API calls, `task` invocations, the filesystem, go-git
repositories) are passed in as explicit environment functions; launching the
update pipeline (`go triggerUpdate(...)`) is recorded as data (a list of the
subsystems triggered) instead of being performed.  All hashes are ASCII hex
strings, so Go's byte slicing `hash[:7]` coincides with character truncation.
-/

/-- Go's `if len(hash) > 7 { hash = hash[:7] }`, shared verbatim by
`getTagCommit`, `getLatestCommit`, `GetCommitHash` and `pullRepo`. -/
def shortHash (hash : String) : String :=
  if hash.length > 7 then { data := hash.data.take 7 } else hash

namespace Webhook

/-- Shapes of provider events the server reacts to.  `releasePublished`
corresponds to `OnReleaseEventPublished` (a release event whose action is
`published`), `push` to `OnPushEventAny`; every other delivery has no
registered handler. -/
inductive EventType where
  | releasePublished
  | push
  | other
deriving DecidableEq

/-- A decoded provider event: its shape, the repository's full name
(`event.GetRepo().GetFullName()`) and the version reference it names
(`GetRelease().GetTagName()` resp. `GetRef()`; the handlers log it and
otherwise ignore it). -/
structure GithubEvent where
  eventType : EventType
  repoFullName : String
  versionRef : String
deriving DecidableEq

/-- An inbound HTTP request as the validation layer sees it: the raw body,
the HMAC signature header, and the result of decoding the body as a provider
event (`none` when the request is not a well-formed provider event). -/
structure WebhookRequest where
  rawBody : String
  signature : String
  parsedEvent : Option GithubEvent

/-- Validation failures surfaced by the library layer. -/
inductive PayloadError where
  | badSignature
  | malformedBody
deriving DecidableEq

/-- Model of `githubevents.EventHandler.HandleEventRequest`'s validation step,
which calls go-github's `ValidatePayload(r, secret)`: the HMAC-SHA256
signature over the raw body is checked **only when the secret is non-empty**
(go-github: "Only validate the signature if a secret token exists"); the body
is then decoded into an event.  `hmac` is the (opaque) HMAC-SHA256 function,
kept abstract since no claim depends on its internals. -/
def validatePayload (hmac : String → String → String) (secret : String)
    (req : WebhookRequest) : Except PayloadError GithubEvent :=
  if secret ≠ "" ∧ req.signature ≠ hmac secret req.rawBody then
    .error .badSignature
  else
    match req.parsedEvent with
    | some e => .ok e
    | none => .error .malformedBody

/-- `mapRepoToSubsystem` from `webhook.go`: the static repository→subsystem
table.  A Go map lookup of an absent key yields the zero value `""`, and the
entry for the engine's own repository is explicitly `""`. -/
def mapRepoToSubsystem (repo : String) : String :=
  if repo = "nats-io/nats-server" then "nats"
  else if repo = "liftbridge-io/liftbridge" then "liftbridge"
  else if repo = "influxdata/telegraf" then "telegraf"
  else if repo = "arcopen/arc" then "arc"
  else if repo = "joeblew999/plat-telemetry" then ""
  else ""

/-- The keys present in `mapRepoToSubsystem`'s table. -/
def registryRepos : List String :=
  ["nats-io/nats-server", "liftbridge-io/liftbridge", "influxdata/telegraf",
   "arcopen/arc", "joeblew999/plat-telemetry"]

/-- `triggerUpdate` from `webhook.go`, with the `exec.Command("task",
"sync:update")` side effect recorded as the list of subsystems for which the
pipeline is invoked: empty when the mapped subsystem name is empty (unknown
repository, or the engine's own repository), a singleton otherwise. -/
def triggerUpdate (repo : String) : List String :=
  let subsystem := mapRepoToSubsystem repo
  if subsystem = "" then [] else [subsystem]

/-- Dispatch of a validated event to the handlers registered in `NewServer`:
release-published and push events call `go triggerUpdate(repo)`; any other
event has no handler and does nothing. -/
def handleEvent (e : GithubEvent) : List String :=
  match e.eventType with
  | .releasePublished => triggerUpdate e.repoFullName
  | .push => triggerUpdate e.repoFullName
  | .other => []

/-- HTTP status plus the pipeline invocations the request caused. -/
structure WebhookResponse where
  status : Nat
  triggers : List String
deriving DecidableEq

/-- `Server.HandleWebhook`: `HandleEventRequest` failing yields
`http.Error(w, "Bad request", 400)` and the handlers never run; success
yields 200 after the handlers ran. -/
def handleWebhook (hmac : String → String → String) (secret : String)
    (req : WebhookRequest) : WebhookResponse :=
  match validatePayload hmac secret req with
  | .error _ => ⟨400, []⟩
  | .ok e => ⟨200, handleEvent e⟩

/-- The secret the server is actually constructed with:
`NewServer` calls `githubevents.New("")`. -/
def serverSecret : String := ""

/-- The deployed endpoint: `HandleWebhook` on the server built by `NewServer`. -/
def serverHandleWebhook (hmac : String → String → String)
    (req : WebhookRequest) : WebhookResponse :=
  handleWebhook hmac serverSecret req

end Webhook

/-- Go's `strings.Split(s, sep)` for a one-character separator, on character
lists (structural, so proofs can evaluate it): `Split("", sep) = [""]`. -/
def splitOnChar (sep : Char) : List Char → List (List Char)
  | [] => [[]]
  | c :: cs =>
    match splitOnChar sep cs with
    | [] => if c = sep then [[], []] else [[c]]
    | h :: t => if c = sep then [] :: h :: t else (c :: h) :: t

/-- Go's `strings.HasPrefix`, on character lists. -/
def hasPrefixChars : List Char → List Char → Bool
  | _, [] => true
  | [], _ :: _ => false
  | c :: cs, p :: ps => c = p && hasPrefixChars cs ps

/-- Whitespace as Go's `strings.TrimSpace` treats ASCII input
(`'\t'`, `'\n'`, `'\v'`, `'\f'`, `'\r'`, `' '`; the marker files and task
outputs at stake are ASCII, so the extra Unicode space classes never occur). -/
def isSpaceChar (c : Char) : Bool :=
  c = ' ' || c = '\t' || c = '\n' || c = '\x0b' || c = '\x0c' || c = '\r'

/-- Go's `strings.TrimSpace` on character lists: drop leading and trailing
whitespace. -/
def trimSpaceChars (cs : List Char) : List Char :=
  ((cs.dropWhile isSpaceChar).reverse.dropWhile isSpaceChar).reverse

namespace Checker

/-- `readVersion`'s per-line step: a line qualifying as the commit line has
prefix `"commit:"` and splits on `":"` into exactly two parts; the value is
the second part, whitespace-trimmed.  A `commit:`-prefixed line with a
different number of parts is passed over and the scan continues. -/
def commitLine (line : List Char) : Option String :=
  if hasPrefixChars line "commit:".data then
    match splitOnChar ':' line with
    | [_, v] => some ⟨trimSpaceChars v⟩
    | _ => none
  else none

/-- `readVersion` from `pkg/checker`: split the marker file on newlines and
return the first qualifying commit line's value; error when none is found. -/
def readVersion (data : String) : Except String String :=
  match (splitOnChar '\n' data.data).findSome? commitLine with
  | some v => .ok v
  | none => .error "no commit hash found in version file"

/-- `GetCurrentVersion` from `pkg/checker`: read
`<cwd>/<subsystem>/.bin/.version` and parse it.  The filesystem is the
environment `fs` mapping a (cwd-relative) path to its contents, `none`
standing for any read error. -/
def GetCurrentVersion (fs : String → Option String) (subsystem : String) :
    Except String String :=
  match fs (subsystem ++ "/.bin/.version") with
  | none => .error "failed to read current version"
  | some data => readVersion data

end Checker

namespace Poller

/-- `RepoConfig` from `poller.go`. -/
structure RepoConfig where
  subsystem : String
  useTag : Bool
  branch : String
deriving DecidableEq

/-- The external world a poll check consults: `task <s>:config:version`
output (`none` = the command failed), the GitHub tag-reference lookup
`Git.GetRef(owner, repo, "tags/"++tag)` giving the tag object's SHA, and
`Repositories.ListCommits(owner, repo, branch)` with `PerPage: 1` giving the
page of commit SHAs (`none` = API error). -/
structure PollEnv where
  taskOutput : String → Option String
  tagSHA : String → String → String → Option String
  listCommits : String → String → String → Option (List String)

/-- `parseRepo`'s scan: split a character list at the first `'/'`. -/
def parseRepoAux : List Char → Option (List Char × List Char)
  | [] => none
  | c :: cs =>
    if c = '/' then some ([], cs)
    else
      match parseRepoAux cs with
      | some (a, b) => some (c :: a, b)
      | none => none

/-- `parseRepo` from `poller.go`: split `"owner/repo"` at the first `'/'`,
returning `("", "")` when there is none. -/
def parseRepo (repo : String) : String × String :=
  match parseRepoAux repo.data with
  | some (a, b) => (⟨a⟩, ⟨b⟩)
  | none => ("", "")

/-- `getDesiredVersion` from `poller.go`: run `task <subsystem>:config:version`,
trim the output, and error when the command failed or the trimmed output is
empty. -/
def getDesiredVersion (taskOutput : String → Option String)
    (subsystem : String) : Except String String :=
  match taskOutput subsystem with
  | none => .error "failed to run task config:version"
  | some out =>
    let version : String := ⟨trimSpaceChars out.data⟩
    if version = "" then .error "empty version returned" else .ok version

/-- `getTagCommit` from `poller.go`: resolve `tags/<tag>` to the SHA it points
at and truncate to the short hash. -/
def getTagCommit (env : PollEnv) (owner repo tag : String) :
    Except String String :=
  match env.tagSHA owner repo tag with
  | none => .error "failed to get tag ref"
  | some sha => .ok (shortHash sha)

/-- `getLatestCommit` from `poller.go`: list the branch's commits (one page of
one), error on an API failure or an empty page, and truncate the head commit's
SHA. -/
def getLatestCommit (env : PollEnv) (owner repo branch : String) :
    Except String String :=
  match env.listCommits owner repo branch with
  | none => .error "failed to list commits"
  | some [] => .error "no commits found"
  | some (sha :: _) => .ok (shortHash sha)

/-- The version-resolution half of `checkRepo` (`poller.go` lines 110-130):
tag mode reads the pinned tag from the Taskfile and resolves it; branch mode
resolves the branch head. -/
def resolveLatest (env : PollEnv) (owner repoName : String)
    (config : RepoConfig) : Except String String :=
  if config.useTag then
    match getDesiredVersion env.taskOutput config.subsystem with
    | .error e => .error e
    | .ok tag => getTagCommit env owner repoName tag
  else
    getLatestCommit env owner repoName config.branch

/-- `checkRepo` from `poller.go`.  The returned list records the
`go triggerUpdate(config.Subsystem)` launches (at most one).  When
`checker.GetCurrentVersion` fails the Go code logs a warning and returns
`nil` without triggering, which is the `.ok []` in the middle branch. -/
def checkRepo (env : PollEnv) (fs : String → Option String) (repo : String)
    (config : RepoConfig) : Except String (List String) :=
  let (owner, repoName) := parseRepo repo
  if owner = "" ∨ repoName = "" then .error ("invalid repo format: " ++ repo)
  else
    match resolveLatest env owner repoName config with
    | .error e => .error e
    | .ok latestHash =>
      match Checker.GetCurrentVersion fs config.subsystem with
      | .error _ => .ok []
      | .ok currentHash =>
        if latestHash ≠ currentHash then .ok [config.subsystem] else .ok []

/-- `checkAll` from `poller.go`: check every configured repository in turn; a
`checkRepo` error is logged and the loop continues.  The result collects all
pipeline launches of the tick.  (Go iterates its `repos` map in unspecified
order; the model takes the entries as a list and the theorems quantify over
it.) -/
def checkAll (env : PollEnv) (fs : String → Option String) :
    List (String × RepoConfig) → List String
  | [] => []
  | (repo, config) :: rest =>
    (match checkRepo env fs repo config with
     | .error _ => []
     | .ok ts => ts) ++ checkAll env fs rest

/-- The `repos` table built by `NewPoller`. -/
def pollerRepos : List (String × RepoConfig) :=
  [("nats-io/nats-server", ⟨"nats", true, ""⟩),
   ("liftbridge-io/liftbridge", ⟨"liftbridge", false, "master"⟩),
   ("influxdata/telegraf", ⟨"telegraf", false, "master"⟩)]

end Poller

namespace Gitops

/-- Outcome of go-git's `worktree.Pull`: go-git reports an up-to-date remote
as the distinguished error value `git.NoErrAlreadyUpToDate`. -/
inductive PullErr where
  | alreadyUpToDate
  | other (msg : String)
deriving DecidableEq

/-- A repository as the gitops helpers observe it at a path: whether
`repo.Worktree()` succeeds, what `worktree.Pull` returns (`none` = pulled new
commits without error), and what `repo.Head()` resolves to after the pull
attempt (`none` = `Head` fails). -/
structure GitRepo where
  hasWorktree : Bool
  pullResult : Option PullErr
  head : Option String

/-- `GetCommitHash` from `pkg/gitops`: open the repository at `path`
(`openRepo path = none` models a `PlainOpen` failure), resolve HEAD, and
return the short hash. -/
def GetCommitHash (openRepo : String → Option GitRepo) (path : String) :
    Except String String :=
  match openRepo path with
  | none => .error "failed to open repo"
  | some repo =>
    match repo.head with
    | none => .error "failed to get HEAD"
    | some hash => .ok (shortHash hash)

/-- `Pull` from `pkg/gitops`: open, take the worktree, pull from `origin`;
an error other than `NoErrAlreadyUpToDate` aborts, while success **or**
`NoErrAlreadyUpToDate` fall through to `GetCommitHash(path)`. -/
def Pull (openRepo : String → Option GitRepo) (path : String) :
    Except String String :=
  match openRepo path with
  | none => .error "failed to open repo"
  | some repo =>
    if !repo.hasWorktree then .error "failed to get worktree"
    else
      match repo.pullResult with
      | some (.other msg) => .error ("failed to pull: " ++ msg)
      | _ => GetCommitHash openRepo path

/-- `pullRepo` from `cmd/gitops.go`: same pull logic, but it reads HEAD from
the already-open repository object instead of reopening the path. -/
def pullRepo (openRepo : String → Option GitRepo) (path : String) :
    Except String String :=
  match openRepo path with
  | none => .error "failed to open repo"
  | some repo =>
    if !repo.hasWorktree then .error "failed to get worktree"
    else
      match repo.pullResult with
      | some (.other msg) => .error ("failed to pull: " ++ msg)
      | _ =>
        match repo.head with
        | none => .error "failed to get HEAD"
        | some hash => .ok (shortHash hash)

end Gitops

namespace Engine

/-!
Trace semantics of the running engine, for the idempotence / in-flight /
coalescing claims.  The per-subsystem persistent state is the on-disk
applied-version marker (the only version store the code has; the code keeps
no in-memory reconciliation state).  A trigger launched by
`go triggerUpdate(...)` stays in flight until its goroutine finishes; the
external pipeline rewrites the marker only when an update completes
successfully.  Events interleave arbitrarily, which is faithful to the code:
`checkRepo` and the webhook handlers take no lock and consult no in-flight
information.
-/

/-- What launched a trigger: a poll comparison that observed `hash`, or a
webhook event for `repo` (the webhook path passes no version at all —
`triggerUpdate(repo)` only receives the repository name). -/
inductive TriggerSrc where
  | poll (hash : String)
  | webhook (repo : String)
deriving DecidableEq, BEq

/-- One in-flight invocation of `task sync:update` for a subsystem. -/
structure Trigger where
  subsystem : String
  src : TriggerSrc
deriving DecidableEq, BEq

/-- Engine state between events: the marker files (`none` = unreadable) and
the launched-but-unfinished triggers. -/
structure EngineState where
  applied : String → Option String
  inFlight : List Trigger

/-- Events of a run.  `pollNotify s h` is `checkRepo` reaching its
compare-and-trigger step for subsystem `s` with observed (short) remote hash
`h`; `webhookNotify r v` is a validated push/release event for repository `r`
naming version `v`; `finish t res` is trigger `t`'s `task sync:update`
completing, the external pipeline having rewritten the marker to `res`
(`none` = failed run, marker untouched). -/
inductive EngineEvent where
  | pollNotify (subsystem hash : String)
  | webhookNotify (repo version : String)
  | finish (t : Trigger) (res : Option String)
deriving DecidableEq

/-- Triggers an event launches, straight from the code: the poll path
compares the observed hash with the marker (skipping when the marker is
unreadable) and triggers exactly on inequality; the webhook path triggers
whenever the repository maps to a non-empty subsystem, ignoring the version
the event names; finishing launches nothing. -/
def launchedBy (s : EngineState) : EngineEvent → List Trigger
  | .pollNotify subsystem hash =>
    match s.applied subsystem with
    | none => []
    | some current => if hash ≠ current then [⟨subsystem, .poll hash⟩] else []
  | .webhookNotify repo _ =>
    let sub := Webhook.mapRepoToSubsystem repo
    if sub = "" then [] else [⟨sub, .webhook repo⟩]
  | .finish _ _ => []

/-- State after an event: launches join the in-flight list; a finish removes
the trigger and lets the pipeline's result overwrite the marker on success. -/
def step (s : EngineState) (e : EngineEvent) : EngineState :=
  match e with
  | .finish t res =>
    if s.inFlight.contains t then
      { applied := fun c =>
          if c = t.subsystem then
            match res with
            | some h => some h
            | none => s.applied c
          else s.applied c,
        inFlight := s.inFlight.erase t }
    else s
  | _ => { s with inFlight := launchedBy s e ++ s.inFlight }

/-- Run a trace of events. -/
def run (s : EngineState) : List EngineEvent → EngineState
  | [] => s
  | e :: es => run (step s e) es

/-- All triggers a trace launches, in order. -/
def launched (s : EngineState) : List EngineEvent → List Trigger
  | [] => []
  | e :: es => launchedBy s e ++ launched (step s e) es

/-- Number of triggers in flight for one subsystem. -/
def inFlightCount (s : EngineState) (subsystem : String) : Nat :=
  (s.inFlight.filter (fun t => t.subsystem = subsystem)).length

end Engine

/-!
Concrete fixtures for evaluating the embedding at explicit inputs: an engine
state whose `nats` marker records `abc1234`, a poll environment in which the
Taskfile query fails but branch heads resolve, filesystems with and without
readable markers, a stand-in HMAC function, sample requests, and a repository
that is already up to date.
-/

/-- Engine state with marker `abc1234` recorded for `nats` and nothing in
flight. -/
def natsState : Engine.EngineState :=
  { applied := fun c => if c = "nats" then some "abc1234" else none,
    inFlight := [] }

/-- Poll environment: `task <s>:config:version` fails, the tag lookup fails,
and every branch head resolves to `deadbeefcafe`. -/
def envNoTask : Poller.PollEnv :=
  { taskOutput := fun _ => none,
    tagSHA := fun _ _ _ => none,
    listCommits := fun _ _ _ => some ["deadbeefcafe"] }

/-- A filesystem on which every read fails. -/
def fsUnreadable : String → Option String := fun _ => none

/-- A filesystem holding only liftbridge's marker, recording `0000000`. -/
def fsLiftOnly : String → Option String := fun p =>
  if p = "liftbridge/.bin/.version" then some "commit: 0000000\n" else none

/-- A stand-in HMAC function for witnesses: constant `good`, so any other
signature fails verification. -/
def hmacConst : String → String → String := fun _ _ => "good"

/-- A well-formed push event for `nats-io/nats-server` carrying an invalid
signature. -/
def reqBadSig : Webhook.WebhookRequest :=
  { rawBody := "body", signature := "bad",
    parsedEvent := some ⟨.push, "nats-io/nats-server", "refs/heads/main"⟩ }

/-- A well-formed push event for a repository absent from the registry. -/
def reqUnknownRepo : Webhook.WebhookRequest :=
  { rawBody := "body2", signature := "sig",
    parsedEvent := some ⟨.push, "example/unknown", "refs/heads/main"⟩ }

/-- A release-published event for the engine's own repository. -/
def reqOwnRepo : Webhook.WebhookRequest :=
  { rawBody := "body3", signature := "sig",
    parsedEvent := some ⟨.releasePublished, "joeblew999/plat-telemetry", "v1.0.0"⟩ }

/-- A malformed request (body does not decode to a provider event). -/
def reqMalformed : Webhook.WebhookRequest :=
  { rawBody := "not json", signature := "sig", parsedEvent := none }

/-- A repository at path `repo` whose pull reports already-up-to-date and
whose HEAD is `0123456789abcdef`. -/
def openUpToDate : String → Option Gitops.GitRepo := fun p =>
  if p = "repo" then some ⟨true, some .alreadyUpToDate, some "0123456789abcdef"⟩
  else none

/-! ## Helper lemmas -/

/-- Truncation really bounds the length: `shortHash` never returns more than
seven characters. -/
theorem shortHash_length_le (h : String) : (shortHash h).length ≤ 7 := by
  unfold shortHash
  split
  · show (h.data.take 7).length ≤ 7
    rw [List.length_take]
    exact Nat.min_le_left 7 _
  · omega

/-- `checkAll` distributes over concatenated repository lists: each entry is
checked independently of the others. -/
theorem checkAll_append (env : Poller.PollEnv) (fs : String → Option String)
    (xs ys : List (String × Poller.RepoConfig)) :
    Poller.checkAll env fs (xs ++ ys)
      = Poller.checkAll env fs xs ++ Poller.checkAll env fs ys := by
  induction xs with
  | nil => simp [Poller.checkAll]
  | cons p rest ih =>
    obtain ⟨repo, config⟩ := p
    simp [Poller.checkAll, ih]

/-- A repository absent from the registry's key set maps to the empty
subsystem name (a Go map miss yields the zero value). -/
theorem mapRepoToSubsystem_of_not_mem (repo : String)
    (h : repo ∉ Webhook.registryRepos) : Webhook.mapRepoToSubsystem repo = "" := by
  simp only [Webhook.registryRepos, List.mem_cons, List.not_mem_nil, or_false,
    not_or] at h
  obtain ⟨h1, h2, h3, h4, h5⟩ := h
  simp [Webhook.mapRepoToSubsystem, h1, h2, h3, h4, h5]

/-- With the empty secret the server is built with, validation never checks
the signature: it succeeds exactly when the body decodes to an event. -/
theorem validatePayload_empty_secret (hmac : String → String → String)
    (req : Webhook.WebhookRequest) :
    Webhook.validatePayload hmac "" req =
      (match req.parsedEvent with
       | some e => .ok e
       | none => .error .malformedBody) := by
  simp [Webhook.validatePayload]

/-- A poll notification leaves the marker map untouched. -/
theorem step_pollNotify_applied (s : Engine.EngineState) (c V : String) :
    (Engine.step s (.pollNotify c V)).applied = s.applied := rfl

/-! ## Claim theorems -/

/-- C8: every VersionPointer the engine produces — pinned-tag resolution
(`getTagCommit`), branch-head resolution (`getLatestCommit`), and reading a
repository's HEAD (`GetCommitHash`) — is truncated to at most 7 characters
before being returned or compared. -/
theorem version_pointers_truncated :
    (∀ (env : Poller.PollEnv) (o r t h : String),
        Poller.getTagCommit env o r t = .ok h → h.length ≤ 7) ∧
    (∀ (env : Poller.PollEnv) (o r b h : String),
        Poller.getLatestCommit env o r b = .ok h → h.length ≤ 7) ∧
    (∀ (g : String → Option Gitops.GitRepo) (p h : String),
        Gitops.GetCommitHash g p = .ok h → h.length ≤ 7) := by
  refine ⟨?_, ?_, ?_⟩
  · intro env o r t h hok
    unfold Poller.getTagCommit at hok
    cases hsha : env.tagSHA o r t with
    | none => rw [hsha] at hok; cases hok
    | some sha =>
      rw [hsha] at hok
      injection hok with h1
      exact h1 ▸ shortHash_length_le sha
  · intro env o r b h hok
    unfold Poller.getLatestCommit at hok
    cases hcs : env.listCommits o r b with
    | none => rw [hcs] at hok; cases hok
    | some cs =>
      rw [hcs] at hok
      cases cs with
      | nil => cases hok
      | cons sha _ =>
        injection hok with h1
        exact h1 ▸ shortHash_length_le sha
  · intro g p h hok
    unfold Gitops.GetCommitHash at hok
    split at hok
    · cases hok
    · split at hok
      · cases hok
      · injection hok with h1
        exact h1 ▸ shortHash_length_le _

/-- Witness for C8: the 16-character HEAD hash of the fixture repository
comes back as a pointer of at most 7 characters. -/
theorem version_pointers_truncated_witness :
    Gitops.GetCommitHash openUpToDate "repo" = .ok "0123456" ∧
    ("0123456" : String).length ≤ 7 :=
  ⟨rfl, version_pointers_truncated.2.2 openUpToDate "repo" "0123456" rfl⟩

/-- C10: a fetch/fast-forward on an already-up-to-date repository succeeds —
go-git's `NoErrAlreadyUpToDate` is not treated as an error — and both `Pull`
and `pullRepo` return the repository's current HEAD as a short pointer. -/
theorem pull_already_up_to_date_ok (openRepo : String → Option Gitops.GitRepo)
    (path : String) (repo : Gitops.GitRepo) (hash : String)
    (hopen : openRepo path = some repo) (hwt : repo.hasWorktree = true)
    (hpull : repo.pullResult = some .alreadyUpToDate)
    (hhead : repo.head = some hash) :
    Gitops.Pull openRepo path = .ok (shortHash hash) ∧
    Gitops.pullRepo openRepo path = .ok (shortHash hash) := by
  constructor
  · simp [Gitops.Pull, hopen, hwt, hpull, Gitops.GetCommitHash, hhead]
  · simp [Gitops.pullRepo, hopen, hwt, hpull, hhead]

/-- Witness for C10: the fixture repository is already up to date and both
pull primitives return its short HEAD `0123456`. -/
theorem pull_already_up_to_date_ok_witness :
    Gitops.Pull openUpToDate "repo" = .ok "0123456" ∧
    Gitops.pullRepo openUpToDate "repo" = .ok "0123456" :=
  pull_already_up_to_date_ok openUpToDate "repo"
    ⟨true, some .alreadyUpToDate, some "0123456789abcdef"⟩ "0123456789abcdef"
    rfl rfl rfl rfl

/-- C7: within one poll tick, `checkAll` checks every configured component
independently: whatever the components before and after it do (including
failing to resolve a version), a component whose own check succeeds
contributes exactly its own triggers to the tick. -/
theorem poll_tick_failure_isolation (env : Poller.PollEnv)
    (fs : String → Option String) (xs ys : List (String × Poller.RepoConfig))
    (repo : String) (config : Poller.RepoConfig) (ts : List String)
    (h : Poller.checkRepo env fs repo config = .ok ts) :
    Poller.checkAll env fs (xs ++ (repo, config) :: ys)
      = Poller.checkAll env fs xs ++ ts ++ Poller.checkAll env fs ys := by
  rw [checkAll_append]
  show Poller.checkAll env fs xs ++
      ((match Poller.checkRepo env fs repo config with
        | .error _ => []
        | .ok ts => ts) ++ Poller.checkAll env fs ys)
    = Poller.checkAll env fs xs ++ ts ++ Poller.checkAll env fs ys
  rw [h, List.append_assoc]

/-- Witness for C7: in the `NewPoller` configuration with the Taskfile query
broken, the `nats` check fails (tag mode) and `telegraf`'s marker is
unreadable, yet `liftbridge` — whose head `deadbee` differs from its marker
`0000000` — still triggers in the same tick. -/
theorem poll_tick_failure_isolation_witness :
    Poller.checkRepo envNoTask fsLiftOnly "nats-io/nats-server"
        ⟨"nats", true, ""⟩ = .error "failed to run task config:version" ∧
    Poller.checkAll envNoTask fsLiftOnly Poller.pollerRepos = ["liftbridge"] :=
  ⟨rfl,
    poll_tick_failure_isolation envNoTask fsLiftOnly
      [("nats-io/nats-server", ⟨"nats", true, ""⟩)]
      [("influxdata/telegraf", ⟨"telegraf", false, "master"⟩)]
      "liftbridge-io/liftbridge" ⟨"liftbridge", false, "master"⟩ ["liftbridge"]
      rfl⟩

/-- Counterexample to C4: a poll check whose remote observation succeeds
(branch head `deadbee`) but whose on-disk marker is unreadable produces zero
triggers — `checkRepo` returns `nil` after logging, i.e. the check is
silently skipped, not allowed one trigger. -/
theorem marker_unreadable_cex :
    Poller.checkRepo envNoTask fsUnreadable "liftbridge-io/liftbridge"
      ⟨"liftbridge", false, "master"⟩ = .ok [] := rfl

/-- C4 as amended: whenever version resolution succeeds but the applied-version
marker cannot be read, `checkRepo` skips the component — zero triggers — and
reports success rather than an error. -/
theorem marker_unreadable_skips (env : Poller.PollEnv)
    (fs : String → Option String) (repo owner repoName latest err : String)
    (config : Poller.RepoConfig)
    (hparse : Poller.parseRepo repo = (owner, repoName))
    (howner : owner ≠ "") (hname : repoName ≠ "")
    (hres : Poller.resolveLatest env owner repoName config = .ok latest)
    (hcur : Checker.GetCurrentVersion fs config.subsystem = .error err) :
    Poller.checkRepo env fs repo config = .ok [] := by
  unfold Poller.checkRepo
  rw [hparse]
  simp only [howner, hname, or_self, if_false, ite_false, hres, hcur]

/-- Witness for C4's amended statement: liftbridge's head resolves to
`deadbee`, every filesystem read fails, and the check yields zero triggers. -/
theorem marker_unreadable_skips_witness :
    Poller.checkRepo envNoTask fsUnreadable "liftbridge-io/liftbridge"
      ⟨"liftbridge", false, "master"⟩ = .ok [] :=
  marker_unreadable_skips envNoTask fsUnreadable "liftbridge-io/liftbridge"
    "liftbridge-io" "liftbridge" "deadbee" "failed to read current version"
    ⟨"liftbridge", false, "master"⟩ rfl (by decide) (by decide) rfl rfl

/-- Counterexample to C1: with `nats`'s last-known version recorded as
`abc1234`, a single webhook notification carrying that same pointer still
launches a pipeline trigger — the webhook path never compares versions. -/
theorem webhook_dup_delivery_cex :
    natsState.applied "nats" = some "abc1234" ∧
    Engine.launched natsState
        [.webhookNotify "nats-io/nats-server" "abc1234"]
      = [⟨"nats", .webhook "nats-io/nats-server"⟩] :=
  ⟨rfl, by decide⟩

/-- C1 as amended: duplicate-delivery idempotence holds for the poll origin
only — any number of poll notifications carrying the recorded version launch
zero triggers — while a webhook notification for a registered repository
launches a trigger regardless of the version it carries. -/
theorem dedup_poll_origin_only :
    (∀ (s : Engine.EngineState) (c V : String) (es : List Engine.EngineEvent),
        s.applied c = some V →
        (∀ e ∈ es, e = Engine.EngineEvent.pollNotify c V) →
        Engine.launched s es = []) ∧
    (∀ (s : Engine.EngineState) (repo v : String),
        Webhook.mapRepoToSubsystem repo ≠ "" →
        Engine.launchedBy s (.webhookNotify repo v)
          = [⟨Webhook.mapRepoToSubsystem repo, .webhook repo⟩]) := by
  constructor
  · intro s c V es
    induction es generalizing s with
    | nil => intro _ _; rfl
    | cons e rest ih =>
      intro happ hes
      have he : e = Engine.EngineEvent.pollNotify c V := hes e (by simp)
      subst he
      show Engine.launchedBy s (.pollNotify c V) ++
          Engine.launched (Engine.step s (.pollNotify c V)) rest = []
      have hlb : Engine.launchedBy s (.pollNotify c V) = [] := by
        simp [Engine.launchedBy, happ]
      rw [hlb, List.nil_append]
      exact ih (Engine.step s (.pollNotify c V))
        (by rw [step_pollNotify_applied]; exact happ)
        (fun e he => hes e (by simp [he]))
  · intro s repo v hne
    simp [Engine.launchedBy, hne]

/-- Witness for C1's amended statement: three poll notifications for `nats`
all carrying the recorded `abc1234` launch zero triggers. -/
theorem dedup_poll_origin_only_witness :
    Engine.launched natsState
      [.pollNotify "nats" "abc1234", .pollNotify "nats" "abc1234",
       .pollNotify "nats" "abc1234"] = [] :=
  dedup_poll_origin_only.1 natsState "nats" "abc1234" _ rfl (by decide)

/-- Counterexample to C2: two poll notifications with fresh hashes arriving
before the first trigger finishes leave two triggers for `nats` in flight at
once — nothing gates the second launch on the first's completion. -/
theorem two_in_flight_cex :
    Engine.inFlightCount
      (Engine.run natsState
        [.pollNotify "nats" "bbbbbbb", .pollNotify "nats" "ccccccc"])
      "nats" = 2 := by decide

/-- C2 as amended: the check-and-trigger step launches a new detached trigger
whenever the observed hash differs from the marker, whatever the number of
triggers already in flight for that component — the per-component in-flight
count grows by one each time and is bounded by nothing. -/
theorem trigger_gate_absent (s : Engine.EngineState) (c V cur : String)
    (happ : s.applied c = some cur) (hne : V ≠ cur) :
    Engine.inFlightCount (Engine.step s (.pollNotify c V)) c
      = Engine.inFlightCount s c + 1 := by
  show Engine.inFlightCount
    { s with inFlight := Engine.launchedBy s (.pollNotify c V) ++ s.inFlight } c
    = Engine.inFlightCount s c + 1
  have hlb : Engine.launchedBy s (.pollNotify c V) = [⟨c, .poll V⟩] := by
    simp [Engine.launchedBy, happ, hne]
  rw [hlb]
  simp [Engine.inFlightCount, List.filter]

/-- Witness for C2's amended statement: with one `nats` trigger already in
flight, a poll notification with a fresh hash raises the in-flight count to
two. -/
theorem trigger_gate_absent_witness :
    Engine.inFlightCount
      (Engine.step
        { applied := natsState.applied,
          inFlight := [⟨"nats", .poll "bbbbbbb"⟩] }
        (.pollNotify "nats" "ccccccc")) "nats"
      = Engine.inFlightCount
          { applied := natsState.applied,
            inFlight := [⟨"nats", .poll "bbbbbbb"⟩] } "nats" + 1 :=
  trigger_gate_absent _ "nats" "ccccccc" "abc1234" rfl (by decide)

/-- Counterexample to C3: with `abc1234` recorded and V1 = `bbbbbbb`'s trigger
in flight, notifications for V2 = `ccccccc` and V3 = `ddddddd` are not
coalesced into one follow-up: V2 and V3 each launch their own trigger at once
(three launches in all), V2 does trigger, and V1's completion launches no
follow-up. -/
theorem coalescing_absent_cex :
    Engine.launched natsState
        [.pollNotify "nats" "bbbbbbb", .pollNotify "nats" "ccccccc",
         .pollNotify "nats" "ddddddd",
         .finish ⟨"nats", .poll "bbbbbbb"⟩ (some "ddddddd")]
      = [⟨"nats", .poll "bbbbbbb"⟩, ⟨"nats", .poll "ccccccc"⟩,
         ⟨"nats", .poll "ddddddd"⟩] ∧
    (⟨"nats", .poll "ccccccc"⟩ : Engine.Trigger) ∈
      Engine.launched natsState
        [.pollNotify "nats" "bbbbbbb", .pollNotify "nats" "ccccccc",
         .pollNotify "nats" "ddddddd",
         .finish ⟨"nats", .poll "bbbbbbb"⟩ (some "ddddddd")] := by
  have h : Engine.launched natsState
      [.pollNotify "nats" "bbbbbbb", .pollNotify "nats" "ccccccc",
       .pollNotify "nats" "ddddddd",
       .finish ⟨"nats", .poll "bbbbbbb"⟩ (some "ddddddd")]
    = [⟨"nats", .poll "bbbbbbb"⟩, ⟨"nats", .poll "ccccccc"⟩,
       ⟨"nats", .poll "ddddddd"⟩] := by decide
  exact ⟨h, by rw [h]; simp⟩

/-- C3 as amended: notifications arriving while an earlier trigger is in
flight are each acted on immediately — V2 and V3 both launch their own
triggers (the marker still holds the pre-trigger version, so both differ),
and the earlier trigger's completion launches nothing. -/
theorem coalescing_absent (s : Engine.EngineState) (c cur V2 V3 : String)
    (t : Engine.Trigger) (res : Option String)
    (happ : s.applied c = some cur) (h2 : V2 ≠ cur) (h3 : V3 ≠ cur) :
    Engine.launched s
        [.pollNotify c V2, .pollNotify c V3, .finish t res]
      = [⟨c, .poll V2⟩, ⟨c, .poll V3⟩] := by
  show Engine.launchedBy s (.pollNotify c V2) ++
      (Engine.launchedBy (Engine.step s (.pollNotify c V2)) (.pollNotify c V3) ++
        (Engine.launchedBy _ (.finish t res) ++ []))
    = [⟨c, .poll V2⟩, ⟨c, .poll V3⟩]
  have happ2 : (Engine.step s (.pollNotify c V2)).applied c = some cur := by
    rw [step_pollNotify_applied]; exact happ
  simp [Engine.launchedBy, happ, happ2, h2, h3]

/-- Witness for C3's amended statement: from the `nats` state, V2 = `ccccccc`
and V3 = `ddddddd` each trigger immediately while V1's trigger is in flight,
and V1's completion adds nothing. -/
theorem coalescing_absent_witness :
    Engine.launched natsState
        [.pollNotify "nats" "ccccccc", .pollNotify "nats" "ddddddd",
         .finish ⟨"nats", .poll "bbbbbbb"⟩ none]
      = [⟨"nats", .poll "ccccccc"⟩, ⟨"nats", .poll "ddddddd"⟩] :=
  coalescing_absent natsState "nats" "abc1234" "ccccccc" "ddddddd"
    ⟨"nats", .poll "bbbbbbb"⟩ none rfl (by decide) (by decide)

/-- Counterexample to C5: a well-formed push event whose signature (`bad`)
fails verification against the server's pre-shared secret (HMAC would be
`good`) is nevertheless answered 200, and a pipeline trigger for `nats`
results — because `NewServer` registers the empty secret, signature
verification is skipped entirely. -/
theorem invalid_signature_accepted_cex :
    reqBadSig.signature ≠ hmacConst Webhook.serverSecret reqBadSig.rawBody ∧
    Webhook.serverHandleWebhook hmacConst reqBadSig = ⟨200, ["nats"]⟩ :=
  ⟨by decide, by decide⟩

/-- C5 as amended: a request that is not a well-formed provider event is
rejected with 400 and triggers nothing; but the server is built with an empty
HMAC secret, so signature verification is skipped and every well-formed event
— whatever its signature — is answered 200. -/
theorem webhook_reject_malformed_only (hmac : String → String → String)
    (req : Webhook.WebhookRequest) :
    (req.parsedEvent = none →
      Webhook.serverHandleWebhook hmac req = ⟨400, []⟩) ∧
    (∀ e, req.parsedEvent = some e →
      (Webhook.serverHandleWebhook hmac req).status = 200) := by
  constructor
  · intro h
    simp [Webhook.serverHandleWebhook, Webhook.handleWebhook,
      Webhook.serverSecret, validatePayload_empty_secret, h]
  · intro e he
    simp [Webhook.serverHandleWebhook, Webhook.handleWebhook,
      Webhook.serverSecret, validatePayload_empty_secret, he]

/-- Witness for C5's amended statement: the malformed fixture request is
answered 400 with no trigger. -/
theorem webhook_reject_malformed_only_witness :
    Webhook.serverHandleWebhook hmacConst reqMalformed = ⟨400, []⟩ :=
  (webhook_reject_malformed_only hmacConst reqMalformed).1 rfl

/-- C6: a structurally valid event naming a repository absent from the static
registry is answered 200 and invokes the pipeline for no component. -/
theorem unregistered_repo_acked_no_trigger (hmac : String → String → String)
    (req : Webhook.WebhookRequest) (e : Webhook.GithubEvent)
    (he : req.parsedEvent = some e)
    (hr : e.repoFullName ∉ Webhook.registryRepos) :
    Webhook.serverHandleWebhook hmac req = ⟨200, []⟩ := by
  have hmap := mapRepoToSubsystem_of_not_mem e.repoFullName hr
  simp only [Webhook.serverHandleWebhook, Webhook.handleWebhook,
    Webhook.serverSecret, validatePayload_empty_secret, he]
  cases het : e.eventType <;>
    simp [Webhook.handleEvent, het, Webhook.triggerUpdate, hmap]

/-- Witness for C6: a push event for `example/unknown` is acknowledged with
200 and zero triggers. -/
theorem unregistered_repo_acked_no_trigger_witness :
    Webhook.serverHandleWebhook hmacConst reqUnknownRepo = ⟨200, []⟩ :=
  unregistered_repo_acked_no_trigger hmacConst reqUnknownRepo
    ⟨.push, "example/unknown", "refs/heads/main"⟩ rfl (by decide)

/-- C9: an event for the engine's own repository `joeblew999/plat-telemetry`
maps to the empty component name in the registry, and the webhook endpoint
acknowledges it with 200 while invoking the pipeline for no component —
`triggerUpdate` returns without acting when the mapped name is empty. -/
theorem own_repo_acked_no_trigger (hmac : String → String → String)
    (req : Webhook.WebhookRequest) (e : Webhook.GithubEvent)
    (he : req.parsedEvent = some e)
    (hr : e.repoFullName = "joeblew999/plat-telemetry") :
    Webhook.mapRepoToSubsystem e.repoFullName = "" ∧
    Webhook.serverHandleWebhook hmac req = ⟨200, []⟩ := by
  have hmap : Webhook.mapRepoToSubsystem e.repoFullName = "" := by
    rw [hr]; decide
  refine ⟨hmap, ?_⟩
  simp only [Webhook.serverHandleWebhook, Webhook.handleWebhook,
    Webhook.serverSecret, validatePayload_empty_secret, he]
  cases het : e.eventType <;>
    simp [Webhook.handleEvent, het, Webhook.triggerUpdate, hmap]

/-- Witness for C9: a release-published event for the engine's own repository
is acknowledged with 200 and zero triggers. -/
theorem own_repo_acked_no_trigger_witness :
    Webhook.serverHandleWebhook hmacConst reqOwnRepo = ⟨200, []⟩ :=
  (own_repo_acked_no_trigger hmacConst reqOwnRepo
    ⟨.releasePublished, "joeblew999/plat-telemetry", "v1.0.0"⟩ rfl rfl).2
